import Mathlib

/-!
Verification of the concurrent scanning engine in
`src/wordfence/scanning/scanner.py`.

The Python module is shallowly embedded: each class's observable behaviour
is translated into pure, executable Lean functions.  Shared queues become
lists of the items dequeued, shared flags become explicit fields of state
records, and raised Python exceptions become `Except` error values or an
explicit error constructor in the result.
-/

set_option autoImplicit false

namespace Wordfence

/-- `Status` (IntEnum) from scanner.py. -/
inductive Status
  | LOCATING_FILES
  | PROCESSING_FILES
  | COMPLETE
  | FAILED
deriving DecidableEq, Repr

/-- `ScanEventType` (IntEnum) from scanner.py. -/
inductive ScanEventType
  | COMPLETED
  | FILE_QUEUE_EMPTIED
  | FILE_PROCESSED
  | EXCEPTION
  | FATAL_EXCEPTION
deriving DecidableEq, Repr

/-- Python exceptions that the module raises or handles, each carrying its
message.  `osError` stands for `OSError`, `attributeError` for the
`AttributeError` raised when an attribute such as `_status` does not exist
yet, `indexError` for list indexing failures, `keyError` for a missing
dict key. -/
inductive Exc
  | scanningException (msg : String)
  | scanConfigurationException (msg : String)
  | osError (msg : String)
  | attributeError (msg : String)
  | indexError (msg : String)
  | keyError (msg : String)
deriving DecidableEq, Repr

/-- Whether an exception is a `ScanningException` (or its subclass
`ScanConfigurationException`), the programming-error class of the module. -/
def Exc.isScanning : Exc → Bool
  | .scanningException _ => true
  | .scanConfigurationException _ => true
  | _ => false

/-- A match mapping: signature id → match state, the value returned by
`context.get_matches()`.  The concrete match states are opaque to the
scanner core, so they are modelled as numbers. -/
abbrev Matches := List (Nat × Nat)

/-- The matcher capability: `create_context` followed by feeding chunks in
order and calling `get_matches` is, observably, one function from the list
of chunks (each a list of bytes) to the match mapping. -/
abbrev Matcher := List (List Nat) → Matches

/-- The possible shapes of `ScanEvent.data` built by the module:
the default empty dict, `{'exception': e}`, or
`{'path': p, 'length': l, 'matches': m}`. -/
inductive EventData
  | emptyDict
  | exception (e : Exc)
  | fileProcessed (path : String) (length : Nat) (ms : Matches)
deriving DecidableEq, Repr

/-- `ScanEvent` from scanner.py: worker index, type and the `data` dict. -/
structure ScanEvent where
  worker_index : Nat
  type : ScanEventType
  data : EventData
deriving DecidableEq, Repr

/-- An item dequeued from the shared work queue: a file path, the
end-of-stream sentinel `None`, or a propagated failure (`BaseException`). -/
inductive WorkItem
  | path (p : String)
  | sentinel
  | failure (e : Exc)
deriving DecidableEq, Repr

/-- One outcome of `self._work_queue.get(timeout=QUEUE_READ_TIMEOUT)`:
either an item, or `queue.Empty` was raised; in the latter case the worker
reads the shared status word, so the status value observed at that moment
is part of the outcome. -/
inductive QueueRead
  | item (w : WorkItem)
  | emptyRead (status : Status)
deriving DecidableEq, Repr

/-- The mutable state of one `ScanWorker`: its private `_working` flag and
its shared `complete` flag. -/
structure WorkerState where
  working : Bool
  complete : Bool
deriving DecidableEq, Repr

/-- `file.read(chunk_size)` loop from `_process_file`, with explicit fuel
(one unit per read call; `content.length` units always suffice).  A read
returns the next `chunk_size` bytes; the loop stops at the first empty
chunk, which also happens immediately when `chunk_size = 0` since Python's
`file.read(0)` returns `b''`. -/
def chunkifyFuel (chunk_size : Nat) : Nat → List Nat → List (List Nat)
  | _, [] => []
  | 0, _ :: _ => []
  | fuel + 1, b :: rest =>
      if chunk_size = 0 then []
      else (b :: rest).take chunk_size ::
        chunkifyFuel chunk_size fuel ((b :: rest).drop chunk_size)

/-- The sequence of chunks `_process_file` reads from a file whose bytes
are `content`. -/
def chunkify (chunk_size : Nat) (content : List Nat) : List (List Nat) :=
  chunkifyFuel chunk_size content.length content

/-- `ScanWorker._process_file`.  The file system is summarised by the
argument `file : Except String (List Nat)`: the bytes of the file at
`path`, or the message of the `OSError` its open/read raises.  On success
the worker feeds the chunks to a fresh matcher context, accumulating
`length`, and emits FILE_PROCESSED; an `OSError` is caught and turned into
a single EXCEPTION event. -/
def processFile (m : Matcher) (chunk_size : Nat) (index : Nat)
    (path : String) (file : Except String (List Nat)) : List ScanEvent :=
  match file with
  | .ok content =>
      let chunks := chunkify chunk_size content
      let length := (chunks.map List.length).sum
      [⟨index, .FILE_PROCESSED, .fileProcessed path length (m chunks)⟩]
  | .error msg => [⟨index, .EXCEPTION, .exception (.osError msg)⟩]

/-- One iteration of the `while self._working` loop in `ScanWorker.work`,
given the outcome of the queue read.  Returns the new worker state and the
events put on the result queue during the iteration.
`fs` gives each path's content or open/read error. -/
def workerStep (m : Matcher) (chunk_size : Nat)
    (fs : String → Except String (List Nat)) (index : Nat)
    (s : WorkerState) (r : QueueRead) : WorkerState × List ScanEvent :=
  match r with
  | .item .sentinel =>
      (⟨false, true⟩,
       [⟨index, .FILE_QUEUE_EMPTIED, .emptyDict⟩,
        ⟨index, .COMPLETED, .emptyDict⟩])
  | .item (.failure e) => (s, [⟨index, .FATAL_EXCEPTION, .exception e⟩])
  | .item (.path p) => (s, processFile m chunk_size index p (fs p))
  | .emptyRead st =>
      if st = .PROCESSING_FILES then
        (⟨false, true⟩, [⟨index, .COMPLETED, .emptyDict⟩])
      else (s, [])

/-- `ScanWorker.work`'s loop over a finite sequence of queue-read
outcomes: before each read the `_working` flag is checked and the loop
stops once it is false. -/
def workerLoop (m : Matcher) (chunk_size : Nat)
    (fs : String → Except String (List Nat)) (index : Nat)
    (s : WorkerState) : List QueueRead → WorkerState × List ScanEvent
  | [] => (s, [])
  | r :: rs =>
      if s.working then
        let step := workerStep m chunk_size fs index s r
        let rest := workerLoop m chunk_size fs index step.1 rs
        (rest.1, step.2 ++ rest.2)
      else (s, [])

/-- Number of COMPLETED events in an event list. -/
def countCompleted (evs : List ScanEvent) : Nat :=
  evs.countP fun e => e.type = ScanEventType.COMPLETED

/-- The `length` field reported by an event (0 for non-FILE_PROCESSED
events). -/
def eventLength (e : ScanEvent) : Nat :=
  match e.data with
  | .fileProcessed _ l _ => l
  | _ => 0

/-! ### ScanMetrics -/

/-- `ScanMetrics`: per-worker file counts and byte counts, Python lists of
ints. -/
structure ScanMetrics where
  counts : List Int
  bytes : List Int
deriving DecidableEq, Repr

/-- `ScanMetrics.__init__(worker_count)`: both metrics start as
`[0] * worker_count`. -/
def ScanMetrics.init (worker_count : Nat) : ScanMetrics :=
  ⟨List.replicate worker_count 0, List.replicate worker_count 0⟩

/-- Python list index resolution for a list of length `n`:
`0 ≤ i < n` is used as is, `-n ≤ i < 0` counts from the end, anything
else raises `IndexError`. -/
def pyIndex (n : Nat) (i : Int) : Except Exc Nat :=
  if 0 ≤ i ∧ i < (n : Int) then .ok i.toNat
  else if -(n : Int) ≤ i ∧ i < 0 then .ok ((n : Int) + i).toNat
  else .error (.indexError "list index out of range")

/-- `ScanMetrics.record_result`: `self.counts[worker_index] += 1` then
`self.bytes[worker_index] += length`, with Python list indexing.  The
result pairs the metrics as mutated so far with the raised exception, if
any: an `IndexError` on the first statement leaves both lists untouched. -/
def ScanMetrics.record_result (m : ScanMetrics) (worker_index : Int)
    (length : Int) : ScanMetrics × Option Exc :=
  match pyIndex m.counts.length worker_index with
  | .error e => (m, some e)
  | .ok ci =>
      let m1 : ScanMetrics := ⟨m.counts.set ci (m.counts.getD ci 0 + 1), m.bytes⟩
      match pyIndex m1.bytes.length worker_index with
      | .error e => (m1, some e)
      | .ok bi => (⟨m1.counts, m1.bytes.set bi (m1.bytes.getD bi 0 + length)⟩, none)

/-! ### ScanWorkerPool event loop (`await_results`) -/

/-- The coordinator-side state touched by `await_results`: the shared
status word, the metrics, and whether `terminate()` has been called on the
pool. -/
structure PoolLoopState where
  status : Status
  metrics : ScanMetrics
  terminated : Bool
deriving DecidableEq, Repr

/-- How a run of the `await_results` loop on a finite dequeued sequence
ends: a normal `return` on the queue sentinel, a raised exception, or the
input exhausted with the loop still blocked on `get()`. -/
inductive LoopOutcome
  | returned (s : PoolLoopState)
  | raised (e : Exc) (s : PoolLoopState)
  | pending (s : PoolLoopState)
deriving DecidableEq, Repr

/-- The pool state an outcome leaves behind. -/
def LoopOutcome.state : LoopOutcome → PoolLoopState
  | .returned s => s
  | .raised _ s => s
  | .pending s => s

/-- The body of `ScanWorkerPool.await_results`, run over the sequence of
items dequeued from the result queue (`none` is the queue sentinel).  The
sentinel that the loop itself pushes when `is_complete()` turns true is a
queue effect: it appears later in the dequeued sequence, so the COMPLETED
branch has no direct state effect here.  A FILE_PROCESSED event records
metrics (an `IndexError` there would propagate out); FILE_QUEUE_EMPTIED
sets the shared status to PROCESSING_FILES; FATAL_EXCEPTION sets it to
FAILED, terminates the pool and re-raises the carried exception without
consuming anything further. -/
def await_results_loop (s : PoolLoopState) :
    List (Option ScanEvent) → LoopOutcome
  | [] => .pending s
  | none :: _ => .returned s
  | some e :: rest =>
      match e.type with
      | .COMPLETED => await_results_loop s rest
      | .FILE_PROCESSED =>
          match e.data with
          | .fileProcessed _ len _ =>
              let rec1 := s.metrics.record_result e.worker_index len
              match rec1.2 with
              | some exc => .raised exc {s with metrics := rec1.1}
              | none => await_results_loop {s with metrics := rec1.1} rest
          | _ => .raised (.keyError "length") s
      | .FILE_QUEUE_EMPTIED =>
          await_results_loop {s with status := .PROCESSING_FILES} rest
      | .EXCEPTION => await_results_loop s rest
      | .FATAL_EXCEPTION =>
          match e.data with
          | .exception exc =>
              .raised exc {s with status := .FAILED, terminated := true}
          | _ => .raised (.keyError "exception")
                {s with status := .FAILED, terminated := true}

/-! ### ScanWorkerPool object state and operations -/

/-- `ScanWorkerPool` as an object: `_started`, and the attributes created
by `start()` — the shared `_status` word and the workers (summarised by
their shared `complete` flags).  `none` means the attribute does not exist
yet, so accessing it raises `AttributeError`. -/
structure ScanWorkerPool where
  size : Nat
  started : Bool
  status : Option Status
  workers : Option (List Bool)
deriving DecidableEq, Repr

/-- A pool as `__init__` leaves it: not started, `_status` and `_workers`
not yet created. -/
def ScanWorkerPool.init (size : Nat) : ScanWorkerPool :=
  ⟨size, false, none, none⟩

def notStartedExc : Exc := .scanningException "Worker pool has not been started"

def alreadyStartedExc : Exc :=
  .scanningException "Worker pool has already been started"

/-- `ScanWorkerPool.start`: raises if already started; otherwise creates
the shared status (LOCATING_FILES), spawns `size` workers (all with
`complete = False`) and sets `_started`. -/
def ScanWorkerPool.start (p : ScanWorkerPool) : Except Exc ScanWorkerPool :=
  if p.started then .error alreadyStartedExc
  else .ok ⟨p.size, true, some .LOCATING_FILES, some (List.replicate p.size false)⟩

/-- `ScanWorkerPool._assert_started`. -/
def ScanWorkerPool.assert_started (p : ScanWorkerPool) : Except Exc Unit :=
  if p.started then .ok () else .error notStartedExc

/-- `ScanWorkerPool.stop`: joins all workers; the object state is
unchanged. -/
def ScanWorkerPool.stop (p : ScanWorkerPool) : Except Exc ScanWorkerPool :=
  match p.assert_started with
  | .error e => .error e
  | .ok _ => .ok p

/-- `ScanWorkerPool.terminate`: force-stops all workers; the object fields
modelled here are unchanged. -/
def ScanWorkerPool.terminate (p : ScanWorkerPool) : Except Exc ScanWorkerPool :=
  match p.assert_started with
  | .error e => .error e
  | .ok _ => .ok p

/-- `ScanWorkerPool.is_complete`: true iff every worker's complete flag is
set. -/
def ScanWorkerPool.is_complete (p : ScanWorkerPool) : Except Exc Bool :=
  match p.assert_started with
  | .error e => .error e
  | .ok _ => .ok ((p.workers.getD []).all (· = true))

/-- `ScanWorkerPool.await_results` as an operation on the pool object:
asserts started, then runs the event loop on the dequeued sequence with a
given metrics object. -/
def ScanWorkerPool.await_results (p : ScanWorkerPool) (metrics : ScanMetrics)
    (items : List (Option ScanEvent)) : Except Exc LoopOutcome :=
  match p.assert_started with
  | .error e => .error e
  | .ok _ =>
      .ok (await_results_loop ⟨p.status.getD .LOCATING_FILES, metrics, false⟩ items)

/-- `ScanWorkerPool.is_failed`: reads `self._status.value` with no
`_assert_started` guard, so before `start()` the `_status` attribute is
missing and an `AttributeError` is raised instead of a
`ScanningException`. -/
def ScanWorkerPool.is_failed (p : ScanWorkerPool) : Except Exc Bool :=
  match p.status with
  | none => .error (.attributeError "_status")
  | some s => .ok (decide (s = .FAILED))

/-! ### FileLocatorProcess -/

/-- An item put on the locator's output queue: a discovered path, the
end-of-stream sentinel `None`, or the `ScanningException` raised by a
failed locate call. -/
inductive OutputItem
  | path (p : String)
  | sentinel
  | failure (e : Exc)
deriving DecidableEq, Repr

/-- The observable behaviour of one `FileLocator.locate()` call for one
root path: the file paths it put on the output queue, in order, and
`some e` when traversal raised the `ScanningException` `e` after those
paths were already queued. -/
structure LocateRun where
  root : String
  yielded : List String
  failure : Option Exc
deriving DecidableEq, Repr

/-- `FileLocatorProcess.run`: the `while` loop invokes `locate` for each
root from the input queue; each call's paths go to the output queue; when
the input is exhausted the sentinel `None` is pushed; a
`ScanningException` escapes the loop, is caught, and the exception object
itself is pushed instead — the remaining roots are skipped and no sentinel
is pushed. -/
def flpRun : List LocateRun → List OutputItem
  | [] => [.sentinel]
  | r :: rs =>
      match r.failure with
      | none => (r.yielded.map .path) ++ flpRun rs
      | some e => (r.yielded.map .path) ++ [.failure e]

/-! ### Scanner -/

/-- `Options` from scanner.py; the opaque signature set is not needed by
any behaviour modelled here and is omitted. -/
structure Options where
  paths : List String
  threads : Nat
  chunk_size : Nat
deriving DecidableEq, Repr

/-- What `Scanner.scan` has set in motion once it is past its validation
and wiring: the locator process is started and fed every configured path,
and the pool is built with `threads` workers and the configured chunk
size.  The record exists only when validation passed. -/
structure ScanSetup where
  locator_started : Bool
  added_paths : List String
  worker_count : Nat
  chunk_size : Nat
deriving DecidableEq, Repr

/-- The validation-and-wiring prefix of `Scanner.scan`: the only check
performed before processes spawn is `len(self.options.paths) == 0`; when
it passes, the locator starts and the pool is created with
`self.options.threads` workers — neither `threads` nor `chunk_size` is
examined by any validation. -/
def Scanner.scan_setup (o : Options) : Except Exc ScanSetup :=
  if o.paths.length = 0 then
    .error (.scanConfigurationException "At least one scan path must be specified")
  else
    .ok ⟨true, o.paths, o.threads, o.chunk_size⟩

/-! ### Concrete instances used by witnesses and counterexamples -/

/-- A concrete matcher that never matches. -/
def mZero : Matcher := fun _ => []

/-- A concrete file system: one readable file "f" with bytes [1, 2, 3];
every other path fails to open. -/
def fsEx : String → Except String (List Nat) :=
  fun p => if p = "f" then .ok [1, 2, 3] else .error "No such file or directory"

deriving instance DecidableEq for Except

/-! ### Helper lemmas -/

/-- With fuel at least the remaining length, the chunks read from a file
cover exactly its bytes: the reported lengths sum to the file size. -/
theorem chunkifyFuel_sum (cs : Nat) (hcs : 0 < cs) :
    ∀ (fuel : Nat) (l : List Nat), l.length ≤ fuel →
      ((chunkifyFuel cs fuel l).map List.length).sum = l.length := by
  intro fuel
  induction fuel with
  | zero =>
      intro l hl
      cases l with
      | nil => simp [chunkifyFuel]
      | cons b rest => simp at hl
  | succ n ih =>
      intro l hl
      cases l with
      | nil => simp [chunkifyFuel]
      | cons b rest =>
          have hne : cs ≠ 0 := Nat.pos_iff_ne_zero.mp hcs
          have hdrop : ((b :: rest).drop cs).length ≤ n := by
            simp only [List.length_drop]
            simp only [List.length_cons] at hl ⊢
            omega
          have := ih ((b :: rest).drop cs) hdrop
          simp only [chunkifyFuel, hne, if_false, List.map_cons, List.sum_cons, this,
            List.length_take, List.length_drop]
          simp only [List.length_cons]
          omega

/-- For a positive chunk size, the sum of chunk lengths is the file
length. -/
theorem chunkify_sum (cs : Nat) (hcs : 0 < cs) (l : List Nat) :
    ((chunkify cs l).map List.length).sum = l.length :=
  chunkifyFuel_sum cs hcs l.length l le_rfl

/-- `_process_file` never emits a COMPLETED event. -/
theorem countCompleted_processFile (m : Matcher) (cs i : Nat) (p : String)
    (file : Except String (List Nat)) :
    countCompleted (processFile m cs i p file) = 0 := by
  cases file <;> simp [processFile, countCompleted]

/-- Once `_working` is false, the loop does nothing. -/
theorem workerLoop_not_working (m : Matcher) (cs : Nat)
    (fs : String → Except String (List Nat)) (i : Nat) (s : WorkerState)
    (rs : List QueueRead) (h : s.working = false) :
    workerLoop m cs fs i s rs = (s, []) := by
  cases rs with
  | nil => rfl
  | cons r rest => simp [workerLoop, h]

/-- One worker iteration never clears the shared complete flag. -/
theorem workerStep_complete_mono (m : Matcher) (cs : Nat)
    (fs : String → Except String (List Nat)) (i : Nat) (s : WorkerState)
    (r : QueueRead) (h : s.complete = true) :
    ((workerStep m cs fs i s r).1).complete = true := by
  cases r with
  | item w => cases w <;> simp [workerStep, h]
  | emptyRead st =>
      by_cases hst : st = Status.PROCESSING_FILES <;> simp [workerStep, hst, h]

/-- The worker loop never clears the shared complete flag. -/
theorem workerLoop_complete_mono (m : Matcher) (cs : Nat)
    (fs : String → Except String (List Nat)) (i : Nat) :
    ∀ (rs : List QueueRead) (s : WorkerState), s.complete = true →
      ((workerLoop m cs fs i s rs).1).complete = true := by
  intro rs
  induction rs with
  | nil => intro s h; exact h
  | cons r rest ih =>
      intro s h
      cases hw : s.working with
      | true =>
          simp only [workerLoop, hw, if_true]
          exact ih _ (workerStep_complete_mono m cs fs i s r h)
      | false =>
          rw [workerLoop_not_working m cs fs i s (r :: rest) hw]
          exact h

/-- One iteration from a working state emits a COMPLETED event exactly
when it clears `_working`. -/
theorem workerStep_count (m : Matcher) (cs : Nat)
    (fs : String → Except String (List Nat)) (i : Nat) (s : WorkerState)
    (r : QueueRead) (hw : s.working = true) :
    countCompleted (workerStep m cs fs i s r).2 =
      if ((workerStep m cs fs i s r).1).working then 0 else 1 := by
  cases r with
  | item w =>
      cases w with
      | path p => simp [workerStep, hw, countCompleted_processFile]
      | sentinel => simp [workerStep, countCompleted]
      | failure e => simp [workerStep, hw, countCompleted]
  | emptyRead st =>
      by_cases hst : st = Status.PROCESSING_FILES <;>
        simp [workerStep, hst, hw, countCompleted]

/-- `countCompleted` distributes over appending event lists. -/
theorem countCompleted_append (a b : List ScanEvent) :
    countCompleted (a ++ b) = countCompleted a + countCompleted b := by
  simp [countCompleted]

/-- From a working state, a worker run emits COMPLETED exactly once when
it finishes (its working flag is cleared) and zero times while it has not
finished; in particular never more than once. -/
theorem workerLoop_count (m : Matcher) (cs : Nat)
    (fs : String → Except String (List Nat)) (i : Nat) :
    ∀ (rs : List QueueRead) (s : WorkerState), s.working = true →
      countCompleted (workerLoop m cs fs i s rs).2 =
        if ((workerLoop m cs fs i s rs).1).working then 0 else 1 := by
  intro rs
  induction rs with
  | nil => intro s hw; simp [workerLoop, countCompleted, hw]
  | cons r rest ih =>
      intro s hw
      simp only [workerLoop, hw, if_true]
      have hstep := workerStep_count m cs fs i s r hw
      cases hw2 : ((workerStep m cs fs i s r).1).working with
      | true =>
          have hrest := ih ((workerStep m cs fs i s r).1) hw2
          simp only [hw2, if_true] at hstep
          rw [countCompleted_append, hstep, hrest]
          simp
      | false =>
          rw [workerLoop_not_working m cs fs i _ rest hw2]
          simp only [hw2, Bool.false_eq_true, if_false] at hstep
          rw [countCompleted_append, hstep]
          simp [hw2, countCompleted]

/-- On a normal return of the event loop, the status is either untouched
or has been set to PROCESSING_FILES: no branch assigns COMPLETE. -/
theorem await_returned_status :
    ∀ (items : List (Option ScanEvent)) (s s' : PoolLoopState),
      await_results_loop s items = .returned s' →
      s'.status = s.status ∨ s'.status = Status.PROCESSING_FILES := by
  intro items
  induction items with
  | nil => intro s s' h; simp [await_results_loop] at h
  | cons x rest ih =>
      intro s s' h
      cases x with
      | none =>
          simp only [await_results_loop, LoopOutcome.returned.injEq] at h
          exact Or.inl (by rw [h])
      | some e =>
          cases htype : e.type
          case COMPLETED =>
              simp only [await_results_loop, htype] at h
              exact ih s s' h
          case EXCEPTION =>
              simp only [await_results_loop, htype] at h
              exact ih s s' h
          case FILE_QUEUE_EMPTIED =>
              simp only [await_results_loop, htype] at h
              rcases ih _ s' h with h1 | h1
              · exact Or.inr h1
              · exact Or.inr h1
          case FILE_PROCESSED =>
              cases hdata : e.data
              case emptyDict =>
                  simp [await_results_loop, htype, hdata] at h
              case exception e' =>
                  simp [await_results_loop, htype, hdata] at h
              case fileProcessed p len ms =>
                  simp only [await_results_loop, htype, hdata] at h
                  cases hrec : (s.metrics.record_result e.worker_index len).2
                  case none =>
                      simp only [hrec] at h
                      rcases ih _ s' h with h1 | h1
                      · exact Or.inl h1
                      · exact Or.inr h1
                  case some exc =>
                      simp [hrec] at h
          case FATAL_EXCEPTION =>
              cases hdata : e.data <;>
                simp [await_results_loop, htype, hdata] at h

/-- The event loop never moves the status to COMPLETE, whatever the
outcome. -/
theorem await_state_not_complete :
    ∀ (items : List (Option ScanEvent)) (s : PoolLoopState),
      s.status ≠ Status.COMPLETE →
      ((await_results_loop s items).state).status ≠ Status.COMPLETE := by
  intro items
  induction items with
  | nil => intro s h; simpa [await_results_loop, LoopOutcome.state] using h
  | cons x rest ih =>
      intro s h
      cases x with
      | none => simpa [await_results_loop, LoopOutcome.state] using h
      | some e =>
          cases htype : e.type
          case COMPLETED =>
              simp only [await_results_loop, htype]
              exact ih s h
          case EXCEPTION =>
              simp only [await_results_loop, htype]
              exact ih s h
          case FILE_QUEUE_EMPTIED =>
              simp only [await_results_loop, htype]
              exact ih _ (by simp)
          case FILE_PROCESSED =>
              cases hdata : e.data
              case emptyDict =>
                  simpa [await_results_loop, htype, hdata, LoopOutcome.state] using h
              case exception e' =>
                  simpa [await_results_loop, htype, hdata, LoopOutcome.state] using h
              case fileProcessed p len ms =>
                  simp only [await_results_loop, htype, hdata]
                  cases hrec : (s.metrics.record_result e.worker_index len).2
                  case none =>
                      simp only [hrec]
                      exact ih _ (by simpa using h)
                  case some exc =>
                      simp only [hrec]
                      simpa [LoopOutcome.state] using h
          case FATAL_EXCEPTION =>
              cases hdata : e.data <;>
                simp [await_results_loop, htype, hdata, LoopOutcome.state]

/-- A failure-free prefix of locate runs forwards exactly its paths. -/
theorem flpRun_ok (rs : List LocateRun) (hok : ∀ q ∈ rs, q.failure = none) :
    flpRun rs = (rs.flatMap fun q => q.yielded.map OutputItem.path) ++ [.sentinel] := by
  induction rs with
  | nil => simp [flpRun]
  | cons q rest ih =>
      have hq : q.failure = none := hok q (List.mem_cons_self _ _)
      simp only [flpRun, hq, List.flatMap_cons, List.append_assoc]
      rw [ih fun x hx => hok x (List.mem_cons_of_mem _ hx)]

/-- When one locate run fails after some successful ones, the output is
the successful paths, then the failing run's already-yielded paths, then
the failure object. -/
theorem flpRun_fail (r : LocateRun) (post : List LocateRun) (e : Exc)
    (hr : r.failure = some e) :
    ∀ pre : List LocateRun, (∀ q ∈ pre, q.failure = none) →
      flpRun (pre ++ r :: post)
        = ((pre.flatMap fun q => q.yielded.map OutputItem.path)
            ++ r.yielded.map OutputItem.path) ++ [.failure e] := by
  intro pre
  induction pre with
  | nil => intro _; simp [flpRun, hr]
  | cons q rest ih =>
      intro hpre
      have hq : q.failure = none := hpre q (List.mem_cons_self _ _)
      simp only [List.cons_append, flpRun, hq, List.flatMap_cons, List.append_eq,
        ih (fun x hx => hpre x (List.mem_cons_of_mem _ hx)), List.append_assoc]

/-! ### Claims -/

/-- Claim C1, counterexample: a worker that dequeues a propagated failure
and then a file path emits a FATAL_EXCEPTION event and then a further
FILE_PROCESSED event, with its working flag still set — it does not stop
after the fatal event, contradicting the claim that it never dequeues
further work or emits further events. -/
theorem C1_counterexample :
    (workerLoop mZero 2 fsEx 0 ⟨true, false⟩
        [.item (.failure (.scanningException "boom")), .item (.path "f")]).2
      = [⟨0, .FATAL_EXCEPTION, .exception (.scanningException "boom")⟩,
         ⟨0, .FILE_PROCESSED, .fileProcessed "f" 3 []⟩]
    ∧ ((workerLoop mZero 2 fsEx 0 ⟨true, false⟩
        [.item (.failure (.scanningException "boom")), .item (.path "f")]).1).working
      = true := by
  decide

/-- Claim C1, amended: on dequeuing a propagated failure the worker emits
exactly one FATAL_EXCEPTION event carrying that failure, but its state is
unchanged — the working flag stays set, so the worker keeps dequeuing
until it is terminated externally by the coordinator. -/
theorem C1_fatal_event_worker_continues (m : Matcher) (cs : Nat)
    (fs : String → Except String (List Nat)) (i : Nat) (s : WorkerState)
    (e : Exc) :
    workerStep m cs fs i s (.item (.failure e))
      = (s, [⟨i, .FATAL_EXCEPTION, .exception e⟩]) := rfl

/-- Claim C2, counterexample: a fatal-error-free run of the event loop
(FILE_QUEUE_EMPTIED, COMPLETED, then the queue sentinel) exits normally
with the shared status still PROCESSING_FILES, not COMPLETE. -/
theorem C2_counterexample :
    await_results_loop ⟨Status.LOCATING_FILES, ScanMetrics.init 1, false⟩
        [some ⟨0, .FILE_QUEUE_EMPTIED, .emptyDict⟩,
         some ⟨0, .COMPLETED, .emptyDict⟩, none]
      = .returned ⟨Status.PROCESSING_FILES, ScanMetrics.init 1, false⟩
    ∧ Status.PROCESSING_FILES ≠ Status.COMPLETE := by decide

/-- Claim C2, amended: when `await_results` exits normally the shared
status is either unchanged or PROCESSING_FILES; no branch of the loop ever
assigns COMPLETE, so a fatal-error-free scan ends with status
PROCESSING_FILES, never COMPLETE. -/
theorem C2_normal_exit_status (items : List (Option ScanEvent))
    (s s' : PoolLoopState) (h : await_results_loop s items = .returned s') :
    (s'.status = s.status ∨ s'.status = Status.PROCESSING_FILES)
    ∧ (s.status ≠ Status.COMPLETE → s'.status ≠ Status.COMPLETE) := by
  refine ⟨await_returned_status items s s' h, fun hs => ?_⟩
  have h2 := await_state_not_complete items s hs
  rw [h] at h2
  simpa [LoopOutcome.state] using h2

/-- Claim C2, witness for the amended theorem at a concrete loop run. -/
theorem C2_witness :
    ((⟨Status.PROCESSING_FILES, ScanMetrics.init 1, false⟩ : PoolLoopState).status
        = (⟨Status.LOCATING_FILES, ScanMetrics.init 1, false⟩ : PoolLoopState).status
      ∨ (⟨Status.PROCESSING_FILES, ScanMetrics.init 1, false⟩ : PoolLoopState).status
        = Status.PROCESSING_FILES)
    ∧ (⟨Status.PROCESSING_FILES, ScanMetrics.init 1, false⟩ : PoolLoopState).status
        ≠ Status.COMPLETE := by
  obtain ⟨h1, h2⟩ := C2_normal_exit_status
    [some ⟨0, .FILE_QUEUE_EMPTIED, .emptyDict⟩,
     some ⟨0, .COMPLETED, .emptyDict⟩, none]
    ⟨Status.LOCATING_FILES, ScanMetrics.init 1, false⟩
    ⟨Status.PROCESSING_FILES, ScanMetrics.init 1, false⟩ (by decide)
  exact ⟨h1, h2 (by decide)⟩

/-- Claim C3: on receiving a FATAL_EXCEPTION event the loop sets the
shared status to FAILED, terminates the pool, and re-raises the carried
failure; the result does not depend on the remaining queue items, so no
further event is processed. -/
theorem C3_fatal_sets_failed_terminates_raises (s : PoolLoopState) (i : Nat)
    (exc : Exc) (rest : List (Option ScanEvent)) :
    await_results_loop s (some ⟨i, .FATAL_EXCEPTION, .exception exc⟩ :: rest)
      = .raised exc ⟨Status.FAILED, s.metrics, true⟩ := rfl

/-- Claim C4: dequeuing the sentinel emits FILE_QUEUE_EMPTIED then
COMPLETED in that order and latches the completion flag; the completion
flag, once set, survives any further loop execution; and from a working
state a worker emits COMPLETED exactly once when it finishes and not at
all while it is still working — never more than once. -/
theorem C4_sentinel_order_and_latch (m : Matcher) (cs : Nat)
    (fs : String → Except String (List Nat)) (i : Nat)
    (s : WorkerState) (rs : List QueueRead) :
    workerStep m cs fs i s (.item .sentinel)
        = (⟨false, true⟩,
           [⟨i, .FILE_QUEUE_EMPTIED, .emptyDict⟩, ⟨i, .COMPLETED, .emptyDict⟩])
    ∧ (s.complete = true → ((workerLoop m cs fs i s rs).1).complete = true)
    ∧ (s.working = true →
        countCompleted (workerLoop m cs fs i s rs).2 =
          if ((workerLoop m cs fs i s rs).1).working then 0 else 1) :=
  ⟨rfl, workerLoop_complete_mono m cs fs i rs s, workerLoop_count m cs fs i rs s⟩

/-- Claim C4, witness at a concrete one-sentinel run. -/
theorem C4_witness :
    workerStep mZero 2 fsEx 0 ⟨true, true⟩ (.item .sentinel)
        = (⟨false, true⟩,
           [⟨0, .FILE_QUEUE_EMPTIED, .emptyDict⟩, ⟨0, .COMPLETED, .emptyDict⟩])
    ∧ ((workerLoop mZero 2 fsEx 0 ⟨true, true⟩ [.item .sentinel]).1).complete = true
    ∧ countCompleted (workerLoop mZero 2 fsEx 0 ⟨true, true⟩ [.item .sentinel]).2 =
        if ((workerLoop mZero 2 fsEx 0 ⟨true, true⟩ [.item .sentinel]).1).working
        then 0 else 1 := by
  obtain ⟨h1, h2, h3⟩ :=
    C4_sentinel_order_and_latch mZero 2 fsEx 0 ⟨true, true⟩ [.item .sentinel]
  exact ⟨h1, h2 rfl, h3 rfl⟩

/-- Claim C5: when open/read fails for a path the worker emits exactly one
EXCEPTION event carrying the error and no FILE_PROCESSED event, its state
is unchanged, and the loop continues with the next work item. -/
theorem C5_io_error_exception_continue (m : Matcher) (cs : Nat)
    (fs : String → Except String (List Nat)) (i : Nat) (s : WorkerState)
    (p : String) (msg : String) (rest : List QueueRead)
    (hfs : fs p = .error msg) (hw : s.working = true) :
    workerStep m cs fs i s (.item (.path p))
        = (s, [⟨i, .EXCEPTION, .exception (.osError msg)⟩])
    ∧ workerLoop m cs fs i s (.item (.path p) :: rest)
        = ((workerLoop m cs fs i s rest).1,
           ⟨i, .EXCEPTION, .exception (.osError msg)⟩ ::
             (workerLoop m cs fs i s rest).2) := by
  constructor
  · simp [workerStep, processFile, hfs]
  · simp [workerLoop, hw, workerStep, processFile, hfs]

/-- Claim C5, witness: reading the unreadable path "g" emits one EXCEPTION
and the worker goes on to handle the sentinel. -/
theorem C5_witness :
    workerStep mZero 2 fsEx 0 ⟨true, false⟩ (.item (.path "g"))
        = (⟨true, false⟩,
           [⟨0, .EXCEPTION, .exception (.osError "No such file or directory")⟩])
    ∧ workerLoop mZero 2 fsEx 0 ⟨true, false⟩ [.item (.path "g"), .item .sentinel]
        = ((workerLoop mZero 2 fsEx 0 ⟨true, false⟩ [.item .sentinel]).1,
           ⟨0, .EXCEPTION, .exception (.osError "No such file or directory")⟩ ::
             (workerLoop mZero 2 fsEx 0 ⟨true, false⟩ [.item .sentinel]).2) :=
  C5_io_error_exception_continue mZero 2 fsEx 0 ⟨true, false⟩ "g"
    "No such file or directory" [.item .sentinel] (by decide) rfl

/-- Claim C6, counterexample: `is_failed` on a never-started pool fails
with an AttributeError on the missing `_status` attribute, which is not a
ScanningException — unlike the other operations it is not guarded by
`_assert_started`. -/
theorem C6_counterexample :
    (ScanWorkerPool.init 2).is_failed = .error (.attributeError "_status")
    ∧ (Exc.attributeError "_status").isScanning = false := by decide

/-- Claim C6, amended: stop, terminate, is_complete and await_results
before start, and a second start, fail with a ScanningException and leave
the pool unchanged (the raising guard runs before any mutation);
`is_failed` before start also fails, but with an AttributeError on the
missing `_status` attribute rather than a ScanningException. -/
theorem C6_pool_misuse (p : ScanWorkerPool) (metrics : ScanMetrics)
    (items : List (Option ScanEvent)) :
    (p.started = false →
        p.stop = .error notStartedExc
        ∧ p.terminate = .error notStartedExc
        ∧ p.is_complete = .error notStartedExc
        ∧ p.await_results metrics items = .error notStartedExc)
    ∧ (p.started = true → p.start = .error alreadyStartedExc)
    ∧ (p.status = none → p.is_failed = .error (.attributeError "_status"))
    ∧ notStartedExc.isScanning = true
    ∧ alreadyStartedExc.isScanning = true := by
  refine ⟨fun h => ?_, fun h => ?_, fun h => ?_, rfl, rfl⟩
  · simp [ScanWorkerPool.stop, ScanWorkerPool.terminate, ScanWorkerPool.is_complete,
      ScanWorkerPool.await_results, ScanWorkerPool.assert_started, h]
  · simp [ScanWorkerPool.start, h]
  · simp [ScanWorkerPool.is_failed, h]

/-- Claim C6, witness: concrete fresh and started pools. -/
theorem C6_witness :
    ((ScanWorkerPool.init 2).stop = .error notStartedExc
      ∧ (ScanWorkerPool.init 2).terminate = .error notStartedExc
      ∧ (ScanWorkerPool.init 2).is_complete = .error notStartedExc
      ∧ (ScanWorkerPool.init 2).await_results (ScanMetrics.init 2) []
          = .error notStartedExc)
    ∧ (⟨2, true, some .LOCATING_FILES, some [false, false]⟩ : ScanWorkerPool).start
        = .error alreadyStartedExc
    ∧ (ScanWorkerPool.init 2).is_failed = .error (.attributeError "_status") := by
  obtain ⟨h1, _, h3, _, _⟩ := C6_pool_misuse (ScanWorkerPool.init 2) (ScanMetrics.init 2) []
  obtain ⟨_, h2, _, _, _⟩ := C6_pool_misuse
    ⟨2, true, some .LOCATING_FILES, some [false, false]⟩ (ScanMetrics.init 2) []
  exact ⟨h1 rfl, h2 rfl, h3 rfl⟩

/-- Claim C7: for a successfully read file and positive chunk size, the
FILE_PROCESSED event carries the path, the sum of the chunk lengths —
which is the file's byte length — and the match mapping of a fresh matcher
context fed exactly those chunks in order; summing the reported lengths
over a list of successfully processed files gives the sum of their
sizes. -/
theorem C7_file_processed_event (m : Matcher) (cs : Nat)
    (fs : String → Except String (List Nat)) (i : Nat) (s : WorkerState)
    (hcs : 0 < cs) :
    (∀ (p : String) (content : List Nat), fs p = .ok content →
        workerStep m cs fs i s (.item (.path p))
          = (s, [⟨i, .FILE_PROCESSED,
                  .fileProcessed p content.length (m (chunkify cs content))⟩]))
    ∧ ∀ contents : List (List Nat),
        (contents.map fun c =>
            ((processFile m cs i "f" (.ok c)).map eventLength).sum).sum
          = (contents.map List.length).sum := by
  constructor
  · intro p content hfs
    simp [workerStep, processFile, hfs, chunkify_sum cs hcs]
  · intro contents
    induction contents with
    | nil => rfl
    | cons c cst ih => simp [processFile, eventLength, chunkify_sum cs hcs, ih]

/-- Claim C7, witness: the three-byte file "f" read in chunks of two. -/
theorem C7_witness :
    workerStep mZero 2 fsEx 0 ⟨true, false⟩ (.item (.path "f"))
        = (⟨true, false⟩,
           [⟨0, .FILE_PROCESSED,
             .fileProcessed "f" (List.length [1, 2, 3]) (mZero (chunkify 2 [1, 2, 3]))⟩])
    ∧ (([[1, 2, 3]] : List (List Nat)).map fun c =>
          ((processFile mZero 2 0 "f" (.ok c)).map eventLength).sum).sum
        = (([[1, 2, 3]] : List (List Nat)).map List.length).sum := by
  obtain ⟨h1, h2⟩ := C7_file_processed_event mZero 2 fsEx 0 ⟨true, false⟩ (by decide)
  exact ⟨h1 "f" [1, 2, 3] (by decide), h2 [[1, 2, 3]]⟩

/-- Claim C8: if a locate call fails, the failure object is pushed onto
the output channel in place of a path, all paths forwarded before the
failure remain in the output, the sentinel does not appear in that failing
run, and in a failure-free run the output ends with the sentinel — the
two terminators are mutually exclusive. -/
theorem C8_locator_failure_output (pre : List LocateRun) (r : LocateRun)
    (post : List LocateRun) (e : Exc)
    (hpre : ∀ q ∈ pre, q.failure = none) (hr : r.failure = some e) :
    flpRun (pre ++ r :: post)
        = ((pre.flatMap fun q => q.yielded.map OutputItem.path)
            ++ r.yielded.map OutputItem.path) ++ [.failure e]
    ∧ OutputItem.sentinel ∉ flpRun (pre ++ r :: post)
    ∧ ∀ rs : List LocateRun, (∀ q ∈ rs, q.failure = none) →
        flpRun rs = (rs.flatMap fun q => q.yielded.map OutputItem.path) ++ [.sentinel] := by
  have hmain := flpRun_fail r post e hr pre hpre
  refine ⟨hmain, ?_, flpRun_ok⟩
  rw [hmain]
  simp

/-- Claim C8, witness: root "r1" yields "a", root "r2" yields "b" and then
fails; the output is the two paths followed by the failure object. -/
theorem C8_witness :
    flpRun [⟨"r1", ["a"], none⟩,
            ⟨"r2", ["b"], some (.scanningException "Directory search failed")⟩,
            ⟨"r3", ["c"], none⟩]
        = (([⟨"r1", ["a"], none⟩] : List LocateRun).flatMap
              (fun q => q.yielded.map OutputItem.path)
            ++ ["b"].map OutputItem.path)
          ++ [.failure (.scanningException "Directory search failed")]
    ∧ OutputItem.sentinel ∉
        flpRun [⟨"r1", ["a"], none⟩,
                ⟨"r2", ["b"], some (.scanningException "Directory search failed")⟩,
                ⟨"r3", ["c"], none⟩]
    ∧ flpRun [⟨"r0", ["d"], none⟩]
        = (([⟨"r0", ["d"], none⟩] : List LocateRun).flatMap
            (fun q => q.yielded.map OutputItem.path)) ++ [.sentinel] := by
  obtain ⟨h1, h2, h3⟩ := C8_locator_failure_output [⟨"r1", ["a"], none⟩]
    ⟨"r2", ["b"], some (.scanningException "Directory search failed")⟩
    [⟨"r3", ["c"], none⟩] (.scanningException "Directory search failed")
    (by intro q hq; simp at hq; rw [hq]) rfl
  exact ⟨h1, h2, h3 [⟨"r0", ["d"], none⟩] (by intro q hq; simp at hq; rw [hq])⟩

/-- Claim C9, counterexample: options with a non-empty path set but worker
count 0 (violating worker count ≥ 1) and chunk size 0 (violating chunk
size > 0) pass `scan`'s validation and the processes are set in motion —
no ScanConfigurationException is raised. -/
theorem C9_counterexample :
    Scanner.scan_setup ⟨["/tmp/x"], 0, 0⟩ = .ok ⟨true, ["/tmp/x"], 0, 0⟩
    ∧ ¬ 1 ≤ (0 : Nat) := by decide

/-- Claim C9, amended: before spawning anything, `scan` validates only
that the path set is non-empty, failing fast with a
ScanConfigurationException exactly when it is empty; neither the worker
count nor the chunk size is validated. -/
theorem C9_validation_paths_only (o : Options) :
    (o.paths.length = 0 →
        Scanner.scan_setup o
          = .error (.scanConfigurationException "At least one scan path must be specified"))
    ∧ (o.paths.length ≠ 0 →
        Scanner.scan_setup o = .ok ⟨true, o.paths, o.threads, o.chunk_size⟩) := by
  constructor
  · intro h; simp [Scanner.scan_setup, h]
  · intro h; simp [Scanner.scan_setup, h]

/-- Claim C9, witness: empty and non-empty concrete option sets. -/
theorem C9_witness :
    Scanner.scan_setup ⟨[], 1, 1024⟩
        = .error (.scanConfigurationException "At least one scan path must be specified")
    ∧ Scanner.scan_setup ⟨["/srv"], 0, 0⟩ = .ok ⟨true, ["/srv"], 0, 0⟩ := by
  obtain ⟨h1, _⟩ := C9_validation_paths_only ⟨[], 1, 1024⟩
  obtain ⟨_, h2⟩ := C9_validation_paths_only ⟨["/srv"], 0, 0⟩
  exact ⟨h1 rfl, h2 (by decide)⟩

/-- Claim C10: with equally long counter lists (as `__init__` creates
them), `record_result` fails with an IndexError and mutates nothing when
the worker index is at least the worker count, while an index in
[-worker_count, 0) silently accumulates into the worker at position
index + worker_count, exactly as if that in-range index had been
passed. -/
theorem C10_record_result_indexing (m : ScanMetrics) (i l : Int)
    (hlen : m.counts.length = m.bytes.length) :
    ((m.counts.length : Int) ≤ i →
        m.record_result i l = (m, some (.indexError "list index out of range")))
    ∧ (-(m.counts.length : Int) ≤ i → i < 0 →
        m.record_result i l = m.record_result (i + m.counts.length) l) := by
  constructor
  · intro h
    have h1 : pyIndex m.counts.length i = .error (.indexError "list index out of range") := by
      simp only [pyIndex]
      rw [if_neg (by omega), if_neg (by omega)]
    simp [ScanMetrics.record_result, h1]
  · intro h1 h2
    have e1 : pyIndex m.counts.length i = .ok ((i + m.counts.length).toNat) := by
      simp only [pyIndex]
      rw [if_neg (by omega), if_pos (by omega)]
      congr 1
      omega
    have e2 : pyIndex m.counts.length (i + m.counts.length)
        = .ok ((i + m.counts.length).toNat) := by
      simp only [pyIndex]
      rw [if_pos (by omega)]
    have e3 : pyIndex m.bytes.length i = .ok ((i + m.counts.length).toNat) := by
      simp only [pyIndex]
      rw [if_neg (by omega), if_pos (by omega)]
      congr 1
      omega
    have e4 : pyIndex m.bytes.length (i + m.counts.length)
        = .ok ((i + m.counts.length).toNat) := by
      simp only [pyIndex]
      rw [if_pos (by omega)]
    simp [ScanMetrics.record_result, e1, e2, e3, e4]

/-- Claim C10, witness: two workers; index 2 raises IndexError leaving the
metrics untouched, index -1 accumulates into worker 1. -/
theorem C10_witness :
    (ScanMetrics.init 2).record_result 2 5
        = (ScanMetrics.init 2, some (.indexError "list index out of range"))
    ∧ (ScanMetrics.init 2).record_result (-1) 5
        = (ScanMetrics.init 2).record_result (-1 + ((ScanMetrics.init 2).counts.length : Int)) 5 := by
  obtain ⟨h1, _⟩ := C10_record_result_indexing (ScanMetrics.init 2) 2 5 (by decide)
  obtain ⟨_, h2⟩ := C10_record_result_indexing (ScanMetrics.init 2) (-1) 5 (by decide)
  exact ⟨h1 (by decide), h2 (by decide) (by decide)⟩

end Wordfence
